import Mathlib

/-!
Verification development for the Charity-Project donation tracker.

The repository holds two near-duplicate Flask applications backed by a
single SQLite table `donation`:

* `src/Charity-Project/app.py` — full CRUD: `create_donation_table`,
  `insert_donation`, `fetch_donations`, `fetch_donation_by_id`,
  `update_donation`, `delete_donation`, a `DonationFactory`, a
  `DonationFacade`, and Flask routes `/donate`, `/view_donations`,
  `/edit_donation/<id>`, `/delete_donation/<id>`.
* `src/app.py` — the reduced copy: `create_donation_table`,
  `insert_donation`, `fetch_donations`, facade and `/donate`,
  `/view_donations` routes; the facade constructor ensures the schema.

The embedding models the SQLite file as an explicit state: a flag for
whether the `donation` table exists, the ordered list of rows (a full
table scan returns rows in rowid order, which for this table is the
`INTEGER PRIMARY KEY AUTOINCREMENT` id), and the autoincrement counter
(the id the next INSERT will receive; AUTOINCREMENT never reuses ids).
Form values arrive from Flask as strings and SQLite stores what it is
given, so field values are modelled as `String` / `Option String`
(`None` ↦ `none`, i.e. SQL NULL).  `CURRENT_TIMESTAMP` is modelled as an
explicit `now` argument to the operations that assign it.  A Python
method body that ends without a `return` statement returns `None`; where
a claim is about a return value this is made explicit in the result type.
-/

namespace Charity

/-- A stored row of the `donation` table, in column order:
`id INTEGER PRIMARY KEY AUTOINCREMENT, name TEXT NOT NULL,
amount REAL NOT NULL, date TEXT DEFAULT CURRENT_TIMESTAMP,
project_name TEXT, notes TEXT`. -/
structure Donation where
  id : Nat
  name : String
  amount : String
  date : String
  project_name : Option String
  notes : Option String
deriving Repr, DecidableEq

/-- The state of the SQLite file `charity.sqlite`: whether the
`donation` table exists, its rows in rowid (= id) order, and the
autoincrement counter (id assigned to the next inserted row). -/
structure DBState where
  tableExists : Bool
  rows : List Donation
  nextId : Nat
deriving Repr, DecidableEq

/-- A fresh database file: no table yet; SQLite row ids start at 1. -/
def emptyDB : DBState := ⟨false, [], 1⟩

/-- Connection lifecycle events of one storage method call. -/
inductive ConnEvent where
  | opened
  | closed
deriving Repr, DecidableEq

/-- A storage statement may raise (sqlite3 I/O or constraint fault). -/
inductive StorageFault where
  | sqliteError
deriving Repr, DecidableEq

/-- The connection skeleton shared by every `SQLiteDatabase` method:
`conn = self.connect(); cursor = conn.cursor(); cursor.execute(...);
[conn.commit();] conn.close()` — written with no `try`/`finally` and no
context manager.  `fault` says whether the executed statement raises.
On success the result is returned and the connection is closed; on a
raise the exception propagates before the `conn.close()` line runs, so
the trace records an open with no matching close. -/
def withConnection (fault : Bool) (result : α) :
    Except StorageFault α × List ConnEvent :=
  if fault then (Except.error StorageFault.sqliteError, [ConnEvent.opened])
  else (Except.ok result, [ConnEvent.opened, ConnEvent.closed])

namespace CP
/-! Embedding of `src/Charity-Project/app.py`. -/

/-- `SQLiteDatabase.create_donation_table` (lines 56-67):
`CREATE TABLE IF NOT EXISTS donation (...)`.  If the table exists the
statement is a no-op; otherwise it creates the empty table. -/
def create_donation_table (st : DBState) : DBState :=
  if st.tableExists then st else ⟨true, [], 1⟩

/-- `SQLiteDatabase.__init__` (lines 49-51): stores the file name and
calls `create_donation_table`, ensuring the table exists on
initialization. -/
def SQLiteDatabase_init (st : DBState) : DBState :=
  create_donation_table st

/-- `SQLiteDatabase.insert_donation` (lines 69-75):
`INSERT INTO donation (name, amount, project_name, notes) VALUES
(?, ?, ?, ?)`.  The row receives the autoincrement id and the
`CURRENT_TIMESTAMP` date default, here the explicit `now`.  The method
body has no `return` statement, so the caller receives Python `None`:
the first component is the returned value read as an id, always `none`. -/
def insert_donation (st : DBState) (now name amount : String)
    (project_name notes : Option String) : Option Nat × DBState :=
  (none,
   ⟨st.tableExists,
    st.rows ++ [⟨st.nextId, name, amount, now, project_name, notes⟩],
    st.nextId + 1⟩)

/-- `SQLiteDatabase.fetch_donations` (lines 77-83):
`SELECT * FROM donation;` then `fetchall()` — returns every row in
stored (rowid) order; the database is unchanged. -/
def fetch_donations (st : DBState) : List Donation :=
  st.rows

/-- `SQLiteDatabase.fetch_donation_by_id` (lines 85-91):
`SELECT * FROM donation WHERE id = ?;` then `fetchone()` — the first
matching row, or Python `None` when there is none. -/
def fetch_donation_by_id (st : DBState) (donation_id : Nat) :
    Option Donation :=
  st.rows.find? (fun d => d.id == donation_id)

/-- `SQLiteDatabase.update_donation` (lines 93-99):
`UPDATE donation SET name = ?, amount = ?, project_name = ?, notes = ?
WHERE id = ?` — rewrites the four mutable columns of every matching row;
`id` and `date` are not in the SET list.  No rows match ⇒ no change; the
method body has no `return` statement (returns `None`, no status). -/
def update_donation (st : DBState) (donation_id : Nat)
    (name amount : String) (project_name notes : Option String) :
    DBState :=
  ⟨st.tableExists,
   st.rows.map (fun d =>
     if d.id == donation_id then
       ⟨d.id, name, amount, d.date, project_name, notes⟩
     else d),
   st.nextId⟩

/-- `SQLiteDatabase.delete_donation` (lines 101-106):
`DELETE FROM donation WHERE id = ?;` — removes every matching row; no
rows match ⇒ no change; no `return` statement (returns `None`). -/
def delete_donation (st : DBState) (donation_id : Nat) : DBState :=
  ⟨st.tableExists, st.rows.filter (fun d => d.id != donation_id),
   st.nextId⟩

/-! Traced runs of the storage methods.  Each is the corresponding
method under `withConnection`, its shared connect/close skeleton; the
`fault` flag says whether the single executed statement raises. -/

/-- Traced run of `create_donation_table`. -/
def create_donation_table_run (fault : Bool) (st : DBState) :
    Except StorageFault DBState × List ConnEvent :=
  withConnection fault (create_donation_table st)

/-- Traced run of `insert_donation`. -/
def insert_donation_run (fault : Bool) (st : DBState)
    (now name amount : String) (project_name notes : Option String) :
    Except StorageFault (Option Nat × DBState) × List ConnEvent :=
  withConnection fault (insert_donation st now name amount project_name notes)

/-- Traced run of `fetch_donations`. -/
def fetch_donations_run (fault : Bool) (st : DBState) :
    Except StorageFault (List Donation) × List ConnEvent :=
  withConnection fault (fetch_donations st)

/-- Traced run of `fetch_donation_by_id`. -/
def fetch_donation_by_id_run (fault : Bool) (st : DBState)
    (donation_id : Nat) :
    Except StorageFault (Option Donation) × List ConnEvent :=
  withConnection fault (fetch_donation_by_id st donation_id)

/-- Traced run of `update_donation`. -/
def update_donation_run (fault : Bool) (st : DBState) (donation_id : Nat)
    (name amount : String) (project_name notes : Option String) :
    Except StorageFault DBState × List ConnEvent :=
  withConnection fault
    (update_donation st donation_id name amount project_name notes)

/-- Traced run of `delete_donation`. -/
def delete_donation_run (fault : Bool) (st : DBState)
    (donation_id : Nat) :
    Except StorageFault DBState × List ConnEvent :=
  withConnection fault (delete_donation st donation_id)

/-- The record built by `DonationFactory.create_donation`
(lines 109-117): the dict with keys `name`, `amount`, `project_name`,
`notes`. -/
structure DonationDict where
  name : String
  amount : String
  project_name : Option String
  notes : Option String
deriving Repr, DecidableEq

/-- `DonationFactory.create_donation(name, amount, project_name=None,
notes=None)`: a pure constructor returning the dict of the four raw
fields; the optional fields default to `None` when not supplied, which
callers pass explicitly here as `none`. -/
def create_donation (name amount : String)
    (project_name notes : Option String) : DonationDict :=
  ⟨name, amount, project_name, notes⟩

/-- `DonationFacade.donate` (lines 124-126): builds the record via the
factory and unpacks it into `insert_donation`; the insert's returned
value is discarded and the method returns `None`, so only the new state
is produced. -/
def facade_donate (st : DBState) (now name amount : String)
    (project_name notes : Option String) : DBState :=
  (insert_donation st now
    (create_donation name amount project_name notes).name
    (create_donation name amount project_name notes).amount
    (create_donation name amount project_name notes).project_name
    (create_donation name amount project_name notes).notes).2

/-- What a Flask handler in this app returns. -/
inductive Response where
  /-- `render_template(t, ...)` — an HTML page, HTTP 200. -/
  | render (template : String)
  /-- `redirect(target)` — HTTP 302. -/
  | redirect (target : String)
  /-- `request.form[k]` with `k` absent raises `BadRequestKeyError`,
  which Flask turns into an HTTP 400 client error. -/
  | badRequest
deriving Repr, DecidableEq

/-- `request.form.get(key, None)` over the submitted form fields (first
binding wins, as in a MultiDict). -/
def formGet (form : List (String × String)) (key : String) :
    Option String :=
  (form.find? (fun p => p.fst == key)).map Prod.snd

/-- The `/donate` route (lines 162-171): `request.form['name']` and
`request.form['amount']` raise a 400 on a missing key before any
database work; the optional fields use `.get(..., None)`; then
`donation_proxy.donate` (which only prints and forwards to the facade)
inserts the row, and the handler renders `thank_you.html`. -/
def donate_route (st : DBState) (now : String)
    (form : List (String × String)) : Response × DBState :=
  match formGet form "name" with
  | none => (Response.badRequest, st)
  | some name =>
    match formGet form "amount" with
    | none => (Response.badRequest, st)
    | some amount =>
      (Response.render "thank_you.html",
       facade_donate st now name amount (formGet form "project_name")
         (formGet form "notes"))

/-- The POST branch of `/edit_donation/<int:id>` (lines 180-186): reads
the form fields (400 on a missing required key), calls
`update_donation`, and redirects to `/view_donations` — the same
response whether or not any row has the given id. -/
def edit_donation_post (st : DBState) (donation_id : Nat)
    (form : List (String × String)) : Response × DBState :=
  match formGet form "name" with
  | none => (Response.badRequest, st)
  | some name =>
    match formGet form "amount" with
    | none => (Response.badRequest, st)
    | some amount =>
      (Response.redirect "/view_donations",
       update_donation st donation_id name amount
         (formGet form "project_name") (formGet form "notes"))

/-- The GET branch of `/edit_donation/<int:id>` (lines 188-189): fetches
the row (possibly `None`) and renders `edit_donation.html` with it —
HTTP 200 in both cases. -/
def edit_donation_get (st : DBState) (donation_id : Nat) :
    Response × Option Donation :=
  (Response.render "edit_donation.html", fetch_donation_by_id st donation_id)

/-- The `/delete_donation/<int:id>` route (lines 191-194): calls
`delete_donation` and unconditionally redirects to `/view_donations`. -/
def delete_donation_route (st : DBState) (donation_id : Nat) :
    Response × DBState :=
  (Response.redirect "/view_donations", delete_donation st donation_id)

end CP

namespace Root
/-! Embedding of `src/app.py`, the reduced copy.  Its `SQLiteDatabase`
has only `create_donation_table`, `insert_donation` and
`fetch_donations` (lines 36-70), with bodies identical to the other
copy; its `SQLiteDatabase.__init__` does NOT create the table — instead
`DonationFacade.__init__` (lines 84-87) calls
`self.db.create_donation_table()`. -/

/-- `SQLiteDatabase.create_donation_table` (src/app.py lines 43-54):
`CREATE TABLE IF NOT EXISTS donation (...)`. -/
def create_donation_table (st : DBState) : DBState :=
  if st.tableExists then st else ⟨true, [], 1⟩

/-- `SQLiteDatabase.insert_donation` (src/app.py lines 56-62): same
INSERT statement and absent `return` as the other copy. -/
def insert_donation (st : DBState) (now name amount : String)
    (project_name notes : Option String) : Option Nat × DBState :=
  (none,
   ⟨st.tableExists,
    st.rows ++ [⟨st.nextId, name, amount, now, project_name, notes⟩],
    st.nextId + 1⟩)

/-- `SQLiteDatabase.fetch_donations` (src/app.py lines 64-70):
`SELECT * FROM donation;` then `fetchall()`. -/
def fetch_donations (st : DBState) : List Donation :=
  st.rows

/-- `DonationFacade.__init__` (src/app.py lines 85-87): stores the db
reference and calls `self.db.create_donation_table()`, ensuring the
schema exists at facade construction. -/
def DonationFacade_init (st : DBState) : DBState :=
  create_donation_table st

end Root

/-- Well-formedness of a database state reachable by the application:
rows are in strictly increasing id order (the order of a rowid table
scan) and every id is below the autoincrement counter. -/
def WF (st : DBState) : Prop :=
  st.rows.Pairwise (fun a b => a.id < b.id) ∧
  ∀ d ∈ st.rows, d.id < st.nextId

lemma map_eq_self_of_fix (l : List Donation) (f : Donation → Donation)
    (h : ∀ a ∈ l, f a = a) : l.map f = l := by
  rw [List.map_congr_left h]
  exact List.map_id l

/-- Claim C10: the two source copies agree on their shared operations —
for every input and starting store state, `create_donation_table`,
`insert_donation` and `fetch_donations` of `src/app.py` produce the same
resulting store state and the same returned values as the same-named
operations of `src/Charity-Project/app.py`. -/
theorem C10_copies_equivalent (st : DBState) (now name amount : String)
    (project_name notes : Option String) :
    Root.create_donation_table st = CP.create_donation_table st ∧
    Root.insert_donation st now name amount project_name notes =
      CP.insert_donation st now name amount project_name notes ∧
    Root.fetch_donations st = CP.fetch_donations st :=
  ⟨rfl, rfl, rfl⟩

/-- Claim C3 counterexample: inserting into the fresh table assigns id 1
to the new record, but `insert_donation` hands back Python `None` — it
does not return the assigned id. -/
theorem C3_counterexample :
    (CP.insert_donation ⟨true, [], 1⟩ "2024-01-01" "Ali" "100"
        none none).1 = none ∧
    ((CP.insert_donation ⟨true, [], 1⟩ "2024-01-01" "Ali" "100"
        none none).2).rows.map Donation.id = [1] ∧
    (CP.insert_donation ⟨true, [], 1⟩ "2024-01-01" "Ali" "100"
        none none).1 ≠ some 1 :=
  ⟨rfl, rfl, by decide⟩

/-- Claim C3 (amended): for every valid input, `insert_donation` creates
the new record with the store's next autoincrement id and bumps the
counter, but returns `None` rather than the assigned id. -/
theorem C3_insert_returns_none (st : DBState) (now name amount : String)
    (project_name notes : Option String) :
    (CP.insert_donation st now name amount project_name notes).1 =
      none ∧
    (CP.insert_donation st now name amount project_name notes).2.rows =
      st.rows ++
        [⟨st.nextId, name, amount, now, project_name, notes⟩] ∧
    (CP.insert_donation st now name amount project_name notes).2.nextId
      = st.nextId + 1 :=
  ⟨rfl, rfl, rfl⟩

/-- Claim C8: `create_donation_table` is idempotent — a repeated call
equals a single call; on a state where the table already exists (with
any records in it) it changes nothing; it always leaves the table
existing; and `DonationFacade.__init__` of `src/app.py` ensures the
schema exists at facade construction. -/
theorem C8_schema_idempotent (st : DBState) :
    CP.create_donation_table (CP.create_donation_table st) =
      CP.create_donation_table st ∧
    (st.tableExists = true → CP.create_donation_table st = st) ∧
    (CP.create_donation_table st).tableExists = true ∧
    (Root.DonationFacade_init st).tableExists = true := by
  unfold Root.DonationFacade_init Root.create_donation_table
    CP.create_donation_table
  cases hb : st.tableExists <;> simp [hb]

/-- Witness for C8 at concrete states: a fresh database, and a table
holding one record. -/
theorem C8_schema_idempotent_witness :
    CP.create_donation_table (CP.create_donation_table emptyDB) =
      CP.create_donation_table emptyDB ∧
    CP.create_donation_table
        ⟨true, [⟨1, "Ali", "100", "2024-01-01", none, none⟩], 2⟩ =
      ⟨true, [⟨1, "Ali", "100", "2024-01-01", none, none⟩], 2⟩ ∧
    (Root.DonationFacade_init emptyDB).tableExists = true :=
  ⟨(C8_schema_idempotent emptyDB).1,
   (C8_schema_idempotent
      ⟨true, [⟨1, "Ali", "100", "2024-01-01", none, none⟩], 2⟩).2.1 rfl,
   (C8_schema_idempotent emptyDB).2.2.2⟩

/-- Claim C9 counterexample: when the INSERT statement raises a storage
fault, the connection opened by `insert_donation` is never closed — the
method has no `try`/`finally`, so `conn.close()` is skipped on the
raising path. -/
theorem C9_counterexample :
    ConnEvent.opened ∈
      (CP.insert_donation_run true emptyDB "2024-01-01" "Ali" "100"
        none none).2 ∧
    ConnEvent.closed ∉
      (CP.insert_donation_run true emptyDB "2024-01-01" "Ali" "100"
        none none).2 := by
  decide

/-- Claim C9 (amended): every storage operation opens its own
connection and performs one statement; on the success path the
connection is closed before returning, but on the path where the
statement raises, the exception propagates and the connection is not
released. -/
theorem C9_connection_lifecycle (st : DBState)
    (now name amount : String) (project_name notes : Option String)
    (donation_id : Nat) :
    (CP.create_donation_table_run false st).2 =
      [ConnEvent.opened, ConnEvent.closed] ∧
    (CP.insert_donation_run false st now name amount project_name
        notes).2 = [ConnEvent.opened, ConnEvent.closed] ∧
    (CP.fetch_donations_run false st).2 =
      [ConnEvent.opened, ConnEvent.closed] ∧
    (CP.fetch_donation_by_id_run false st donation_id).2 =
      [ConnEvent.opened, ConnEvent.closed] ∧
    (CP.update_donation_run false st donation_id name amount
        project_name notes).2 = [ConnEvent.opened, ConnEvent.closed] ∧
    (CP.delete_donation_run false st donation_id).2 =
      [ConnEvent.opened, ConnEvent.closed] ∧
    (CP.create_donation_table_run true st).2 = [ConnEvent.opened] ∧
    (CP.insert_donation_run true st now name amount project_name
        notes).2 = [ConnEvent.opened] ∧
    (CP.fetch_donations_run true st).2 = [ConnEvent.opened] ∧
    (CP.fetch_donation_by_id_run true st donation_id).2 =
      [ConnEvent.opened] ∧
    (CP.update_donation_run true st donation_id name amount
        project_name notes).2 = [ConnEvent.opened] ∧
    (CP.delete_donation_run true st donation_id).2 =
      [ConnEvent.opened] :=
  ⟨rfl, rfl, rfl, rfl, rfl, rfl, rfl, rfl, rfl, rfl, rfl, rfl⟩

/-- Claim C4: a POST to `/donate` whose form lacks the required field
`name` or the required field `amount` fails with a client error (HTTP
400 from `BadRequestKeyError`) and leaves the store unchanged — the
raise happens before any database call. -/
theorem C4_missing_field_client_error (st : DBState) (now : String)
    (form : List (String × String))
    (h : CP.formGet form "name" = none ∨
      CP.formGet form "amount" = none) :
    (CP.donate_route st now form).1 = CP.Response.badRequest ∧
    (CP.donate_route st now form).2 = st := by
  cases hn : CP.formGet form "name" with
  | none => simp [CP.donate_route, hn]
  | some name =>
    rcases h with h | h
    · rw [hn] at h
      cases h
    · simp [CP.donate_route, hn, h]

/-- Witness for C4: the empty form (no `name`, no `amount`) on a fresh
database. -/
theorem C4_missing_field_client_error_witness :
    (CP.donate_route emptyDB "2024-01-01" []).1 = CP.Response.badRequest ∧
    (CP.donate_route emptyDB "2024-01-01" []).2 = emptyDB :=
  C4_missing_field_client_error emptyDB "2024-01-01" [] (Or.inl rfl)

/-- Claim C2 counterexample: on a store whose only record has id 1, the
delete endpoint and the edit (POST) endpoint answer the absent id 2 with
the very same success redirect they give the present id 1 — no
not-found result is reported for an unknown id (the app's handlers can
only render, redirect, or fail on a missing form key; no 404 exists). -/
theorem C2_counterexample :
    (CP.delete_donation_route
        ⟨true, [⟨1, "Ali", "100", "2024-01-01", none, none⟩], 2⟩ 2).1 =
      CP.Response.redirect "/view_donations" ∧
    (CP.delete_donation_route
        ⟨true, [⟨1, "Ali", "100", "2024-01-01", none, none⟩], 2⟩ 2).1 =
      (CP.delete_donation_route
        ⟨true, [⟨1, "Ali", "100", "2024-01-01", none, none⟩], 2⟩ 1).1 ∧
    (CP.edit_donation_post
        ⟨true, [⟨1, "Ali", "100", "2024-01-01", none, none⟩], 2⟩ 2
        [("name", "Bob"), ("amount", "7")]).1 =
      CP.Response.redirect "/view_donations" ∧
    (CP.edit_donation_post
        ⟨true, [⟨1, "Ali", "100", "2024-01-01", none, none⟩], 2⟩ 2
        [("name", "Bob"), ("amount", "7")]).1 =
      (CP.edit_donation_post
        ⟨true, [⟨1, "Ali", "100", "2024-01-01", none, none⟩], 2⟩ 1
        [("name", "Bob"), ("amount", "7")]).1 := by
  refine ⟨rfl, rfl, ?_, ?_⟩ <;> rfl

/-- Claim C2 (amended): `update_donation` and `delete_donation` return
no status at all; on an id absent from the store they leave the store
unchanged (silent no-op), and the delete and edit endpoints answer an
absent id with the same redirect to `/view_donations` they give a
present id — not-found is never surfaced. -/
theorem C2_silent_noop (st : DBState) (donation_id : Nat)
    (h : ∀ d ∈ st.rows, d.id ≠ donation_id) :
    CP.delete_donation st donation_id = st ∧
    (∀ name amount project_name notes,
      CP.update_donation st donation_id name amount project_name notes
        = st) ∧
    (CP.delete_donation_route st donation_id).1 =
      CP.Response.redirect "/view_donations" ∧
    (CP.delete_donation_route st donation_id).2 = st ∧
    ∀ form name amount, CP.formGet form "name" = some name →
      CP.formGet form "amount" = some amount →
      (CP.edit_donation_post st donation_id form).1 =
        CP.Response.redirect "/view_donations" := by
  have hdel : CP.delete_donation st donation_id = st := by
    unfold CP.delete_donation
    have hf : st.rows.filter (fun d => d.id != donation_id) = st.rows :=
      List.filter_eq_self.mpr (fun a ha => by simp [h a ha])
    rw [hf]
  have hupd : ∀ name amount project_name notes,
      CP.update_donation st donation_id name amount project_name notes
        = st := by
    intro n a p q
    unfold CP.update_donation
    have hm : st.rows.map (fun d =>
        if d.id == donation_id then
          (⟨d.id, n, a, d.date, p, q⟩ : Donation)
        else d) = st.rows :=
      map_eq_self_of_fix _ _ (fun d hd => by simp [h d hd])
    rw [hm]
  exact ⟨hdel, hupd, rfl, hdel, fun form n a hn ha => by
    simp [CP.edit_donation_post, hn, ha]⟩

/-- Witness for C2 (amended) at a concrete store: one record with id 1,
operations aimed at the absent id 2. -/
theorem C2_silent_noop_witness :
    CP.delete_donation
        ⟨true, [⟨1, "Ali", "100", "2024-01-01", none, none⟩], 2⟩ 2 =
      ⟨true, [⟨1, "Ali", "100", "2024-01-01", none, none⟩], 2⟩ ∧
    (∀ name amount project_name notes,
      CP.update_donation
          ⟨true, [⟨1, "Ali", "100", "2024-01-01", none, none⟩], 2⟩ 2
          name amount project_name notes =
        ⟨true, [⟨1, "Ali", "100", "2024-01-01", none, none⟩], 2⟩) ∧
    (CP.delete_donation_route
        ⟨true, [⟨1, "Ali", "100", "2024-01-01", none, none⟩], 2⟩ 2).1 =
      CP.Response.redirect "/view_donations" ∧
    (CP.delete_donation_route
        ⟨true, [⟨1, "Ali", "100", "2024-01-01", none, none⟩], 2⟩ 2).2 =
      ⟨true, [⟨1, "Ali", "100", "2024-01-01", none, none⟩], 2⟩ ∧
    ∀ form name amount, CP.formGet form "name" = some name →
      CP.formGet form "amount" = some amount →
      (CP.edit_donation_post
          ⟨true, [⟨1, "Ali", "100", "2024-01-01", none, none⟩], 2⟩ 2
          form).1 =
        CP.Response.redirect "/view_donations" :=
  C2_silent_noop ⟨true, [⟨1, "Ali", "100", "2024-01-01", none, none⟩], 2⟩
    2 (by decide)

/-- Claim C7: after `delete_donation` on id `i`, no row with id `i`
appears in any subsequent listing, and a subsequent
`fetch_donation_by_id i` returns `None` (not-found). -/
theorem C7_delete_removes (st : DBState) (donation_id : Nat) :
    CP.fetch_donation_by_id (CP.delete_donation st donation_id)
      donation_id = none ∧
    ∀ d ∈ CP.fetch_donations (CP.delete_donation st donation_id),
      d.id ≠ donation_id := by
  constructor
  · unfold CP.fetch_donation_by_id CP.delete_donation
    refine List.find?_eq_none.mpr ?_
    intro x hx
    simp only [List.mem_filter, bne_iff_ne] at hx
    simp [hx.2]
  · intro d hd
    unfold CP.fetch_donations CP.delete_donation at hd
    simp only [List.mem_filter, bne_iff_ne] at hd
    exact hd.2

/-- Witness for C7: deleting the single record (id 1) of a concrete
store. -/
theorem C7_delete_removes_witness :
    CP.fetch_donation_by_id
      (CP.delete_donation
        ⟨true, [⟨1, "Ali", "100", "2024-01-01", none, none⟩], 2⟩ 1) 1 =
      none ∧
    ∀ d ∈ CP.fetch_donations
        (CP.delete_donation
          ⟨true, [⟨1, "Ali", "100", "2024-01-01", none, none⟩], 2⟩ 1),
      d.id ≠ 1 :=
  C7_delete_removes
    ⟨true, [⟨1, "Ali", "100", "2024-01-01", none, none⟩], 2⟩ 1

/-- Claim C6: an edit is a frame-preserving map over the stored rows —
row for row, the updated store keeps `id` and `date` equal to the
original, every row whose id differs from the edited one is completely
unchanged, and no row is added or removed. -/
theorem C6_update_frame (st : DBState) (donation_id : Nat)
    (name amount : String) (project_name notes : Option String) :
    List.Forall₂
      (fun d d' => d'.id = d.id ∧ d'.date = d.date ∧
        (d.id ≠ donation_id → d' = d))
      st.rows
      (CP.update_donation st donation_id name amount project_name
        notes).rows ∧
    (CP.update_donation st donation_id name amount project_name
        notes).rows.length = st.rows.length := by
  constructor
  · unfold CP.update_donation
    refine List.forall₂_map_right_iff.mpr (List.forall₂_same.mpr ?_)
    intro d _
    rcases eq_or_ne d.id donation_id with he | he
    · simp [he]
    · simp [he]
  · simp [CP.update_donation]

/-- Witness for C6: editing the record with id 1 in a two-record
store. -/
theorem C6_update_frame_witness :
    List.Forall₂
      (fun d d' => d'.id = d.id ∧ d'.date = d.date ∧
        (d.id ≠ 1 → d' = d))
      [⟨1, "Ali", "100", "2024-01-01", none, none⟩,
       ⟨2, "Sara", "50", "2024-01-02", none, none⟩]
      (CP.update_donation
        ⟨true, [⟨1, "Ali", "100", "2024-01-01", none, none⟩,
                ⟨2, "Sara", "50", "2024-01-02", none, none⟩], 3⟩
        1 "Bob" "7" none none).rows ∧
    (CP.update_donation
        ⟨true, [⟨1, "Ali", "100", "2024-01-01", none, none⟩,
                ⟨2, "Sara", "50", "2024-01-02", none, none⟩], 3⟩
        1 "Bob" "7" none none).rows.length =
      [⟨1, "Ali", "100", "2024-01-01", none, none⟩,
       (⟨2, "Sara", "50", "2024-01-02", none, none⟩ : Donation)].length :=
  C6_update_frame
    ⟨true, [⟨1, "Ali", "100", "2024-01-01", none, none⟩,
            ⟨2, "Sara", "50", "2024-01-02", none, none⟩], 3⟩
    1 "Bob" "7" none none

lemma update_row_id (donation_id : Nat) (name amount : String)
    (project_name notes : Option String) (d : Donation) :
    (if d.id == donation_id then
      (⟨d.id, name, amount, d.date, project_name, notes⟩ : Donation)
    else d).id = d.id := by
  split <;> rfl

/-- Claim C5: on every well-formed store (rows in rowid order with ids
below the autoincrement counter — true of every state the application
can reach, as the invariant clauses show), `fetch_donations` returns
exactly the stored rows, their ids pairwise ascending, an edit leaves the
listed id sequence unchanged, and the invariant is preserved by insert,
update, and delete and holds of the fresh database. -/
theorem C5_listing_sorted (st : DBState) (h : WF st) :
    CP.fetch_donations st = st.rows ∧
    ((CP.fetch_donations st).map Donation.id).Pairwise
      (fun a b => a < b) ∧
    (∀ donation_id name amount project_name notes,
      (CP.fetch_donations (CP.update_donation st donation_id name
          amount project_name notes)).map Donation.id =
        (CP.fetch_donations st).map Donation.id ∧
      WF (CP.update_donation st donation_id name amount project_name
        notes)) ∧
    (∀ now name amount project_name notes,
      WF (CP.insert_donation st now name amount project_name
        notes).2) ∧
    (∀ donation_id, WF (CP.delete_donation st donation_id)) ∧
    WF emptyDB := by
  obtain ⟨hp, hb⟩ := h
  refine ⟨rfl, List.pairwise_map.mpr hp, ?_, ?_, ?_, ?_⟩
  · intro i n a p q
    have hids : (st.rows.map (fun d =>
        if d.id == i then (⟨d.id, n, a, d.date, p, q⟩ : Donation)
        else d)).map Donation.id = st.rows.map Donation.id := by
      rw [List.map_map]
      exact List.map_congr_left (fun d _ => update_row_id i n a p q d)
    refine ⟨?_, ?_, ?_⟩
    · simpa [CP.fetch_donations, CP.update_donation] using hids
    · show ((CP.update_donation st i n a p q).rows).Pairwise _
      unfold CP.update_donation
      refine List.pairwise_map.mpr (hp.imp_of_mem ?_)
      intro x y _ _ hxy
      simp only [update_row_id]
      exact hxy
    · intro d hd
      unfold CP.update_donation at hd ⊢
      simp only [List.mem_map] at hd
      obtain ⟨x, hx, rfl⟩ := hd
      simp only [update_row_id]
      exact hb x hx
  · intro now n a p q
    constructor
    · show (st.rows ++
        [(⟨st.nextId, n, a, now, p, q⟩ : Donation)]).Pairwise _
      refine List.pairwise_append.mpr
        ⟨hp, List.pairwise_singleton _ _, ?_⟩
      intro x hx y hy
      simp only [List.mem_singleton] at hy
      subst hy
      exact hb x hx
    · intro d hd
      simp only [CP.insert_donation, List.mem_append,
        List.mem_singleton] at hd
      rcases hd with hd | hd
      · exact Nat.lt_trans (hb d hd) (Nat.lt_succ_self _)
      · subst hd
        exact Nat.lt_succ_self _
  · intro i
    constructor
    · exact List.Pairwise.sublist (List.filter_sublist st.rows) hp
    · intro d hd
      simp only [CP.delete_donation, List.mem_filter] at hd
      exact hb d hd.1
  · exact And.intro List.Pairwise.nil (by simp [emptyDB])

/-- Witness for C5 at a concrete well-formed two-record store. -/
theorem C5_listing_sorted_witness :
    CP.fetch_donations
        ⟨true, [⟨1, "Ali", "100", "2024-01-01", none, none⟩,
                ⟨2, "Sara", "50", "2024-01-02", none, none⟩], 3⟩ =
      [⟨1, "Ali", "100", "2024-01-01", none, none⟩,
       ⟨2, "Sara", "50", "2024-01-02", none, none⟩] ∧
    ((CP.fetch_donations
        ⟨true, [⟨1, "Ali", "100", "2024-01-01", none, none⟩,
                ⟨2, "Sara", "50", "2024-01-02", none, none⟩], 3⟩).map
      Donation.id).Pairwise (fun a b => a < b) ∧
    (∀ donation_id name amount project_name notes,
      (CP.fetch_donations (CP.update_donation
          ⟨true, [⟨1, "Ali", "100", "2024-01-01", none, none⟩,
                  ⟨2, "Sara", "50", "2024-01-02", none, none⟩], 3⟩
          donation_id name amount project_name notes)).map Donation.id =
        (CP.fetch_donations
          ⟨true, [⟨1, "Ali", "100", "2024-01-01", none, none⟩,
                  ⟨2, "Sara", "50", "2024-01-02", none, none⟩], 3⟩).map
          Donation.id ∧
      WF (CP.update_donation
        ⟨true, [⟨1, "Ali", "100", "2024-01-01", none, none⟩,
                ⟨2, "Sara", "50", "2024-01-02", none, none⟩], 3⟩
        donation_id name amount project_name notes)) ∧
    (∀ now name amount project_name notes,
      WF (CP.insert_donation
        ⟨true, [⟨1, "Ali", "100", "2024-01-01", none, none⟩,
                ⟨2, "Sara", "50", "2024-01-02", none, none⟩], 3⟩
        now name amount project_name notes).2) ∧
    (∀ donation_id, WF (CP.delete_donation
      ⟨true, [⟨1, "Ali", "100", "2024-01-01", none, none⟩,
              ⟨2, "Sara", "50", "2024-01-02", none, none⟩], 3⟩
      donation_id)) ∧
    WF emptyDB :=
  C5_listing_sorted
    ⟨true, [⟨1, "Ali", "100", "2024-01-01", none, none⟩,
            ⟨2, "Sara", "50", "2024-01-02", none, none⟩], 3⟩
    (by constructor
        · decide
        · decide)

/-- Claim C1: building the record via `DonationFactory.create_donation`,
inserting it through the facade, and immediately fetching by the
assigned id (the store's autoincrement counter) returns a record whose
`name`, `amount`, `project_name` and `notes` equal the constructed
ones; when the optional fields are not supplied the constructed (and
hence fetched) `project_name`/`notes` are NULL.  The hypothesis — no
stored row already carries the autoincrement id — holds of every
reachable store, as proved with claim C5. -/
theorem C1_roundtrip (st : DBState) (now name amount : String)
    (project_name notes : Option String)
    (h : ∀ d ∈ st.rows, d.id ≠ st.nextId) :
    CP.fetch_donation_by_id
        (CP.facade_donate st now name amount project_name notes)
        st.nextId =
      some ⟨st.nextId,
        (CP.create_donation name amount project_name notes).name,
        (CP.create_donation name amount project_name notes).amount,
        now,
        (CP.create_donation name amount project_name notes).project_name,
        (CP.create_donation name amount project_name notes).notes⟩ ∧
    (CP.create_donation name amount none none).project_name = none ∧
    (CP.create_donation name amount none none).notes = none := by
  refine ⟨?_, rfl, rfl⟩
  show ((CP.facade_donate st now name amount project_name
      notes).rows).find? _ = _
  unfold CP.facade_donate CP.insert_donation CP.create_donation
  rw [List.find?_append,
    List.find?_eq_none.mpr (fun x hx => by simp [h x hx])]
  simp

/-- Witness for C1: inserting into the empty table (assigned id 1) with
the optional fields not supplied, then fetching id 1. -/
theorem C1_roundtrip_witness :
    CP.fetch_donation_by_id
        (CP.facade_donate ⟨true, [], 1⟩ "2024-01-01" "Ali" "100"
          none none) 1 =
      some ⟨1, "Ali", "100", "2024-01-01", none, none⟩ ∧
    (CP.create_donation "Ali" "100" none none).project_name = none ∧
    (CP.create_donation "Ali" "100" none none).notes = none :=
  C1_roundtrip ⟨true, [], 1⟩ "2024-01-01" "Ali" "100" none none
    (by simp)

end Charity
